import Mathlib

/-!
Shallow embedding of the normalization and dispatch layer of the expo-iap
library (`src/index.ts` and `src/ExpoIapModule.ts`), together with proofs of
the behavioural properties stated in the specification.

JavaScript values are modelled explicitly: a field that may hold a
non-string value is a small sum type, `undefined`/missing optional fields
are `Option`, a thrown error is the `error` branch of `Except`, and each
native-bridge invocation performed by a function is recorded in an explicit
trace so that "no native call is made" is a provable statement.
-/

namespace ExpoIap

/-- JavaScript `String.prototype.toLowerCase` restricted to the ASCII range,
which is all the library compares against (`'ios'`/`'android'`). -/
def jsToLower (s : String) : String :=
  String.mk (s.data.map Char.toLower)

/-- The `platform` field of a purchase as it arrives from the native layer:
either a string or some non-string value (the code checks `typeof`). -/
inductive PlatformField where
  | str (s : String)
  | nonString
deriving DecidableEq, Repr

/-- A purchase record.  `platform` is the field the normalizer inspects;
the remaining fields stand for every other property of the JS object and
are never touched by normalization (the source uses an object spread). -/
structure Purchase where
  platform : PlatformField
  id : String
  productId : String
  purchaseToken : Option String
  transactionDate : Int
  rest : List (String × String)
deriving DecidableEq, Repr

/-- `normalizePurchasePlatform` from `src/index.ts` (lines 118-130):
lower-case the `platform` field exactly when it is a string, is not already
lower-case, and its lower-casing is one of the literals `'ios'`/`'android'`;
otherwise return the purchase untouched. -/
def normalizePurchasePlatform (purchase : Purchase) : Purchase :=
  match purchase.platform with
  | .nonString => purchase
  | .str platform =>
    let lowered := jsToLower platform
    if lowered = platform ∨ (lowered ≠ "ios" ∧ lowered ≠ "android") then
      purchase
    else
      { purchase with platform := .str lowered }

/-- `normalizePurchaseArray` from `src/index.ts` (lines 132-133). -/
def normalizePurchaseArray (purchases : List Purchase) : List Purchase :=
  purchases.map (fun purchase => normalizePurchasePlatform purchase)

/-- The wrapped listener that `purchaseUpdatedListener` (`src/index.ts`
lines 135-147) registers with the emitter: it normalizes the event payload
before invoking the caller-supplied listener. -/
def purchaseUpdatedWrappedListener {α : Type} (listener : Purchase → α)
    (event : Purchase) : α :=
  listener (normalizePurchasePlatform event)

theorem jsToLower_ios : jsToLower "ios" = "ios" := by decide

theorem jsToLower_android : jsToLower "android" = "android" := by decide

theorem purchase_eta (p : Purchase) (f : PlatformField) (h : p.platform = f) :
    { p with platform := f } = p := by
  cases p
  simp_all

theorem normalize_str (s : String) (a b : String) (c : Option String)
    (d : Int) (e : List (String × String)) :
    normalizePurchasePlatform ⟨.str s, a, b, c, d, e⟩ =
      if jsToLower s = s ∨ (jsToLower s ≠ "ios" ∧ jsToLower s ≠ "android")
      then ⟨.str s, a, b, c, d, e⟩
      else ⟨.str (jsToLower s), a, b, c, d, e⟩ := rfl

theorem normalize_lower_of_known (p : Purchase) (s : String)
    (hp : p.platform = .str s)
    (h : jsToLower s = "ios" ∨ jsToLower s = "android") :
    normalizePurchasePlatform p = { p with platform := .str (jsToLower s) } := by
  obtain ⟨pf, a, b, c, d, e⟩ := p
  simp only at hp
  subst hp
  rw [normalize_str]
  split
  · next hcond =>
    rcases hcond with hEq | ⟨h1, h2⟩
    · simp [hEq]
    · rcases h with h | h
      · exact absurd h h1
      · exact absurd h h2
  · rfl

theorem normalize_untouched_of_unknown (p : Purchase) (s : String)
    (hp : p.platform = .str s)
    (h1 : jsToLower s ≠ "ios") (h2 : jsToLower s ≠ "android") :
    normalizePurchasePlatform p = p := by
  obtain ⟨pf, a, b, c, d, e⟩ := p
  simp only at hp
  subst hp
  rw [normalize_str]
  simp [h1, h2]

theorem normalize_idem (p : Purchase) :
    normalizePurchasePlatform (normalizePurchasePlatform p) =
      normalizePurchasePlatform p := by
  obtain ⟨pf, a, b, c, d, e⟩ := p
  cases pf with
  | nonString => rfl
  | str s =>
    rw [normalize_str]
    split
    · rw [normalize_str]
      split
      · rfl
      · next hcond => exact absurd ‹_› hcond
    · next hcond =>
      push_neg at hcond
      obtain ⟨hne, hknown⟩ := hcond
      by_cases h : jsToLower s = "ios"
      · rw [normalize_str, h, jsToLower_ios]
        simp
      · rw [normalize_str, hknown h, jsToLower_android]
        simp

/-- C1: purchase platform normalization lower-cases the `platform` field iff
its lower-casing is `'ios'` or `'android'` (otherwise the purchase is
untouched), it is idempotent, and the purchase-updated event path applies the
same normalization before the listener runs, so a payload with platform
`'IOS'` reaches the listener with platform `'ios'`. -/
theorem C1_purchase_platform_normalization
    (p q : Purchase) (s : String) (hp : p.platform = .str s)
    (listener : Purchase → Purchase) (e : Purchase)
    (he : e.platform = .str "IOS") :
    ((jsToLower s = "ios" ∨ jsToLower s = "android") →
        normalizePurchasePlatform p = { p with platform := .str (jsToLower s) }) ∧
    ((jsToLower s ≠ "ios" ∧ jsToLower s ≠ "android") →
        normalizePurchasePlatform p = p) ∧
    normalizePurchasePlatform (normalizePurchasePlatform q) =
      normalizePurchasePlatform q ∧
    purchaseUpdatedWrappedListener listener e =
      listener { e with platform := .str "ios" } := by
  refine ⟨fun h => normalize_lower_of_known p s hp h,
          fun h => normalize_untouched_of_unknown p s hp h.1 h.2,
          normalize_idem q, ?_⟩
  unfold purchaseUpdatedWrappedListener
  rw [normalize_lower_of_known e "IOS" he (Or.inl (by decide))]
  have hL : jsToLower "IOS" = "ios" := by decide
  rw [hL]

/-- Witness for C1 at concrete inputs: platform `'Android'` is lower-cased
to `'android'`, and an event with platform `'IOS'` reaches the listener
with platform `'ios'`. -/
theorem C1_purchase_platform_normalization_witness :
    normalizePurchasePlatform ⟨.str "Android", "id1", "prod1", none, 0, []⟩ =
      ⟨.str "android", "id1", "prod1", none, 0, []⟩ ∧
    purchaseUpdatedWrappedListener (fun x => x)
        ⟨.str "IOS", "id2", "prod2", none, 0, []⟩ =
      ⟨.str "ios", "id2", "prod2", none, 0, []⟩ := by
  have h := C1_purchase_platform_normalization
      ⟨.str "Android", "id1", "prod1", none, 0, []⟩
      ⟨.str "Android", "id1", "prod1", none, 0, []⟩ "Android" rfl (fun x => x)
      ⟨.str "IOS", "id2", "prod2", none, 0, []⟩ rfl
  obtain ⟨h1, -, -, h4⟩ := h
  constructor
  · have hA := h1 (Or.inr (by decide))
    rw [hA]
    have : jsToLower "Android" = "android" := by decide
    rw [this]
  · rw [h4]

/-- C10: purchase platform normalization modifies only the `platform` field
(every other field of the output equals the input's), and whenever the
`platform` field is not a string, is already lower-case, or does not
lower-case to `'ios'`/`'android'`, the input purchase is returned
unchanged. -/
theorem C10_normalization_frame (p : Purchase) :
    ((normalizePurchasePlatform p).id = p.id ∧
     (normalizePurchasePlatform p).productId = p.productId ∧
     (normalizePurchasePlatform p).purchaseToken = p.purchaseToken ∧
     (normalizePurchasePlatform p).transactionDate = p.transactionDate ∧
     (normalizePurchasePlatform p).rest = p.rest) ∧
    (p.platform = .nonString → normalizePurchasePlatform p = p) ∧
    (∀ s, p.platform = .str s → jsToLower s = s →
       normalizePurchasePlatform p = p) ∧
    (∀ s, p.platform = .str s → jsToLower s ≠ "ios" → jsToLower s ≠ "android" →
       normalizePurchasePlatform p = p) := by
  obtain ⟨pf, a, b, c, d, e⟩ := p
  refine ⟨?_, ?_, ?_, ?_⟩
  · cases pf with
    | nonString => exact ⟨rfl, rfl, rfl, rfl, rfl⟩
    | str s =>
      rw [normalize_str]
      split <;> exact ⟨rfl, rfl, rfl, rfl, rfl⟩
  · intro h
    simp only at h
    subst h
    rfl
  · intro s hs hlow
    simp only at hs
    subst hs
    rw [normalize_str]
    simp [hlow]
  · intro s hs h1 h2
    simp only at hs
    subst hs
    rw [normalize_str]
    simp [h1, h2]

/-- Witness for C10 at concrete inputs: a non-string platform and an
already-lower-case unknown platform are returned unchanged, and
normalizing platform `'IOS'` preserves the `productId` field. -/
theorem C10_normalization_frame_witness :
    normalizePurchasePlatform ⟨.nonString, "a", "b", none, 5, []⟩ =
      ⟨.nonString, "a", "b", none, 5, []⟩ ∧
    normalizePurchasePlatform ⟨.str "Web", "a", "b", none, 5, []⟩ =
      ⟨.str "Web", "a", "b", none, 5, []⟩ ∧
    (normalizePurchasePlatform ⟨.str "IOS", "a", "b", none, 5, []⟩).productId =
      "b" := by
  refine ⟨(C10_normalization_frame _).2.1 rfl,
          (C10_normalization_frame _).2.2.2 "Web" rfl (by decide) (by decide),
          ?_⟩
  exact (C10_normalization_frame ⟨.str "IOS", "a", "b", none, 5, []⟩).1.2.1

/-- The members of the closed `ErrorCode` enumeration (`src/types.ts`) that
the embedded operations mention. -/
inductive ErrorCode where
  | emptySkuList
  | developerError
  | userCancelled
  | networkError
  | unknown
deriving DecidableEq, Repr

/-- A structured purchase failure descriptor. -/
structure PurchaseError where
  code : ErrorCode
  message : String
  productId : Option String
  platform : Option String
deriving DecidableEq, Repr

/-- Modelled from the spec: `createPurchaseError` lives in
`src/utils/errorMapping.ts`, which is not in the source pack.  Per §4.2 it
is a pure constructor that attaches the canonical `code` and the optional
`productId`/`platform` fields, preserving every field passed in without
loss. -/
def createPurchaseError (code : ErrorCode) (message : String)
    (productId : Option String) (platform : Option String) : PurchaseError :=
  ⟨code, message, productId, platform⟩

/-- A thrown JS error: either a structured `PurchaseError` or a plain
`Error` carrying only a message. -/
inductive JsError where
  | purchaseErr (e : PurchaseError)
  | genericError (message : String)
deriving DecidableEq, Repr

/-- One invocation of a native-bridge method, with the arguments the
claims talk about. -/
inductive NativeCall where
  | fetchProductsIos (skus : List String) (type : String)
  | fetchProductsAndroid (type : String) (skus : List String)
  | requestPurchaseIos (type : String)
  | requestPurchaseAndroid (type : String) (skuArr : List String)
  | finishTransactionIos
  | consumePurchaseAndroid (token : String)
  | acknowledgePurchaseAndroid (token : String)
  | getAvailableItemsIos (alsoPublish : Bool) (onlyActive : Bool)
  | getAvailableItemsAndroid
  | getStorefront
  | syncIos (failed : Bool)
deriving DecidableEq, Repr

deriving instance DecidableEq for Except

/-- The observable outcome of a unified-API call: the trace of native-bridge
invocations it performed, and its resolved value or thrown error. -/
structure IapOutcome (α : Type) where
  nativeCalls : List NativeCall
  result : Except JsError α
deriving DecidableEq, Repr

/-- `normalizeProductType` from `src/index.ts` (lines 90-116): a missing
type, the deprecated `'inapp'` alias and `'in-app'` all map to canonical
`'in-app'`; `'subs'` and `'all'` map to themselves; anything else throws.
The returned pair is `(canonical, native)`, which the source always makes
equal. -/
def normalizeProductType (type? : Option String) :
    Except String (String × String) :=
  if type? = none ∨ type? = some "inapp" ∨ type? = some "in-app" then
    .ok ("in-app", "in-app")
  else if type? = some "subs" then
    .ok ("subs", "subs")
  else if type? = some "all" then
    .ok ("all", "all")
  else
    .error "Unsupported product type"

/-- The `skus` field of a `fetchProducts` request as JS sees it: missing
(`undefined`), present but not an array, or an array of strings. -/
inductive SkusField where
  | missing
  | notArray
  | arr (skus : List String)
deriving DecidableEq, Repr

/-- A `fetchProducts` request object. -/
structure FetchRequest where
  skus : SkusField
  type : Option String
deriving DecidableEq, Repr

/-- The `id` field of a raw native catalog item: missing, a non-string
value, or a string. -/
inductive IdField where
  | missing
  | nonString
  | str (s : String)
deriving DecidableEq, Repr

/-- One element of the untyped array a native `fetchProducts` call returns:
`null`/`undefined`, or an object with a `platform` field (absent or a
string), an `id` field, and an opaque remainder distinguished by `tag`. -/
inductive RawItem where
  | nullish
  | obj (platform : Option String) (id : IdField) (tag : Nat)
deriving DecidableEq, Repr

/-- Modelled from the spec: `isProductIOS` lives in `src/modules/ios.ts`,
which is not in the source pack.  Per §4.3 it is a structural predicate
checking that the object is non-null/non-undefined and its discriminant
`platform` field equals the literal `'ios'`. -/
def isProductIOS : RawItem → Bool
  | .nullish => false
  | .obj platform _ _ => platform = some "ios"

/-- Modelled from the spec: `isProductAndroid` lives in
`src/modules/android.ts`, which is not in the source pack.  Per §4.3 it is
a structural predicate checking that the object is non-null/non-undefined
and its discriminant `platform` field equals the literal `'android'`. -/
def isProductAndroid : RawItem → Bool
  | .nullish => false
  | .obj platform _ _ => platform = some "android"

/-- The `typeof candidate.id === 'string' && skuSet.has(candidate.id)`
check from the `fetchProducts` filters (`src/index.ts` lines 268, 279). -/
def idInRequestedSkus (item : RawItem) (skus : List String) : Bool :=
  match item with
  | .nullish => false
  | .obj _ id _ =>
    match id with
    | .str s => skus.contains s
    | _ => false

/-- The guard of the `EmptySkuList` throw in `fetchProducts`
(`src/index.ts` line 248): `Array.isArray(skus) && skus.length !== 0`. -/
def skusArrayNonEmpty : SkusField → Bool
  | .arr l => decide (l ≠ [])
  | _ => false

/-- The `skus` field of `request ?? {}` in `fetchProducts`. -/
def requestSkus : Option FetchRequest → SkusField
  | none => .missing
  | some r => r.skus

/-- `fetchProducts` from `src/index.ts` (lines 244-305), with the running
platform and the native result passed explicitly.  The `castResult` helper
of the source is a TypeScript-level cast with no runtime effect and is
omitted. -/
def fetchProducts (request : Option FetchRequest) (os : String)
    (native : List RawItem) : IapOutcome (List RawItem) :=
  let type? := (request.map (fun r => r.type)).join
  match requestSkus request with
  | .arr l =>
    if l = [] then
      ⟨[], .error (.purchaseErr
        (createPurchaseError .emptySkuList "No SKUs provided" none none))⟩
    else
      match normalizeProductType type? with
      | .error m => ⟨[], .error (.genericError m)⟩
      | .ok (_canonical, nativeType) =>
        if os = "ios" then
          ⟨[.fetchProductsIos l nativeType],
            .ok (native.filter
              (fun item => isProductIOS item && idInRequestedSkus item l))⟩
        else if os = "android" then
          ⟨[.fetchProductsAndroid nativeType l],
            .ok (native.filter
              (fun item => isProductAndroid item && idInRequestedSkus item l))⟩
        else
          ⟨[], .error (.genericError "Unsupported platform")⟩
  | _ =>
    ⟨[], .error (.purchaseErr
      (createPurchaseError .emptySkuList "No SKUs provided" none none))⟩

/-- The iOS per-platform request props (`request.ios`); only `sku` is
inspected by the dispatch layer. -/
structure RequestIosProps where
  sku : Option String
deriving DecidableEq, Repr

/-- The Android per-platform request props (`request.android`); only
`skus` is inspected by the validation the claims are about. -/
structure RequestAndroidProps where
  skus : Option (List String)
deriving DecidableEq, Repr

/-- The per-platform request object of `requestPurchase`. -/
structure RequestProps where
  ios : Option RequestIosProps
  android : Option RequestAndroidProps
deriving DecidableEq, Repr

/-- The arguments of `requestPurchase`. -/
structure RequestPurchaseArgs where
  request : RequestProps
  type : Option String
deriving DecidableEq, Repr

/-- What the native `requestPurchase` resolves with on iOS: a single
purchase, an array (rare), or `null`. -/
inductive NativePurchaseResponse where
  | single (p : Purchase)
  | arr (ps : List Purchase)
  | null
deriving DecidableEq, Repr

/-- The value a `requestPurchase` call resolves with. -/
inductive RequestPurchaseResult where
  | purchases (ps : List Purchase)
  | purchase (p : Purchase)
  | null
deriving DecidableEq, Repr

/-- The falsy test `!normalizedRequest?.sku` of the iOS branch
(`src/index.ts` line 467): true when `request.ios` is missing, `sku` is
missing, or `sku` is the empty string. -/
def iosSkuMissing (request : RequestProps) : Bool :=
  match request.ios with
  | none => true
  | some props =>
    match props.sku with
    | none => true
    | some s => s = ""

/-- The falsy test `!normalizedRequest?.skus?.length` of the Android
branches (`src/index.ts` lines 506, 539): true when `request.android` is
missing, `skus` is missing, or `skus` is empty. -/
def androidSkusMissing (request : RequestProps) : Bool :=
  match request.android with
  | none => true
  | some props =>
    match props.skus with
    | none => true
    | some l => l = []

/-- `requestPurchase` from `src/index.ts` (lines 457-582), with the
running platform and the native responses passed explicitly.  The extra
Android payload fields (obfuscated ids, offer tokens, replacement mode)
are defaulted exactly as in the source but do not affect the observable
outcome modelled here beyond the recorded call. -/
def requestPurchase (args : RequestPurchaseArgs) (os : String)
    (nativeIos : NativePurchaseResponse) (nativeAndroid : List Purchase) :
    IapOutcome RequestPurchaseResult :=
  match normalizeProductType args.type with
  | .error m => ⟨[], .error (.genericError m)⟩
  | .ok (canonical, nativeType) =>
    if os = "ios" then
      if iosSkuMissing args.request then
        ⟨[], .error (.genericError
          "Invalid request for iOS. The `sku` property is required and must be a string.")⟩
      else if canonical ≠ "in-app" ∧ canonical ≠ "subs" then
        ⟨[], .error (.genericError "Unsupported product type")⟩
      else
        ⟨[.requestPurchaseIos canonical],
          match nativeIos with
          | .arr ps => .ok (.purchases (normalizePurchaseArray ps))
          | .single p => .ok (.purchase (normalizePurchasePlatform p))
          | .null =>
            .ok (if canonical = "subs" then .purchases [] else .null)⟩
    else if os = "android" then
      if canonical = "in-app" then
        if androidSkusMissing args.request then
          ⟨[], .error (.genericError
            "Invalid request for Android. The `skus` property is required and must be a non-empty array.")⟩
        else
          let skus := ((args.request.android.map (fun p => p.skus)).join).getD []
          ⟨[.requestPurchaseAndroid nativeType skus],
            .ok (.purchases (normalizePurchaseArray nativeAndroid))⟩
      else if canonical = "subs" then
        if androidSkusMissing args.request then
          ⟨[], .error (.genericError
            "Invalid request for Android. The `skus` property is required and must be a non-empty array.")⟩
        else
          let skus := ((args.request.android.map (fun p => p.skus)).join).getD []
          ⟨[.requestPurchaseAndroid nativeType skus],
            .ok (.purchases (normalizePurchaseArray nativeAndroid))⟩
      else
        ⟨[], .error (.genericError
          "Invalid request for Android: Expected a valid request object with skus array.")⟩
    else
      ⟨[], .error (.genericError "Platform not supported")⟩

/-- `finishTransaction` from `src/index.ts` (lines 584-615). -/
def finishTransaction (purchase : Purchase) (isConsumable : Bool)
    (os : String) : IapOutcome Unit :=
  if os = "ios" then
    ⟨[.finishTransactionIos], .ok ()⟩
  else if os = "android" then
    let token := purchase.purchaseToken.getD ""
    if token = "" then
      ⟨[], .error (.purchaseErr (createPurchaseError .developerError
        "Purchase token is required to finish transaction"
        (some purchase.productId) (some "android")))⟩
    else if isConsumable then
      ⟨[.consumePurchaseAndroid token], .ok ()⟩
    else
      ⟨[.acknowledgePurchaseAndroid token], .ok ()⟩
  else
    ⟨[], .error (.genericError "Unsupported Platform")⟩

/-- The options object of `getAvailablePurchases`. -/
structure PurchaseOptions where
  alsoPublishToEventListenerIOS : Option Bool
  onlyIncludeActiveItemsIOS : Option Bool
deriving DecidableEq, Repr

/-- `getAvailablePurchases` from `src/index.ts` (lines 307-328): options
default to `false`/`true`, `Platform.select` picks the native query, and
an unsupported platform falls back to resolving an empty array; the
native result is run through the purchase array normalizer. -/
def getAvailablePurchases (options : Option PurchaseOptions) (os : String)
    (native : Except JsError (List Purchase)) : IapOutcome (List Purchase) :=
  let alsoPublish :=
    ((options.map (fun o => o.alsoPublishToEventListenerIOS)).join).getD false
  let onlyActive :=
    ((options.map (fun o => o.onlyIncludeActiveItemsIOS)).join).getD true
  if os = "ios" then
    ⟨[.getAvailableItemsIos alsoPublish onlyActive],
      native.map normalizePurchaseArray⟩
  else if os = "android" then
    ⟨[.getAvailableItemsAndroid], native.map normalizePurchaseArray⟩
  else
    ⟨[], .ok (normalizePurchaseArray [])⟩

/-- `getStorefront` from `src/index.ts` (lines 390-395): a platform that
is neither `'ios'` nor `'android'` resolves with `''` without any native
call. -/
def getStorefront (os : String) (native : String) : IapOutcome String :=
  if os ≠ "ios" ∧ os ≠ "android" then
    ⟨[], .ok ""⟩
  else
    ⟨[NativeCall.getStorefront], .ok native⟩

/-- `restorePurchases` from `src/index.ts` (lines 627-636): on iOS a
best-effort `syncIOS().catch(() => undefined)` (its failure is recorded in
the trace but never surfaces), then `getAvailablePurchases` with the
literal options `{alsoPublishToEventListenerIOS: false,
onlyIncludeActiveItemsIOS: true}`; the purchases are discarded. -/
def restorePurchases (os : String) (syncFails : Bool)
    (native : Except JsError (List Purchase)) : IapOutcome Unit :=
  let syncCalls : List NativeCall :=
    if os = "ios" then [.syncIos syncFails] else []
  let gap := getAvailablePurchases
    (some ⟨some false, some true⟩) os native
  ⟨syncCalls ++ gap.nativeCalls, gap.result.map (fun _ => ())⟩

/-- Whether the leading characters of a list match a pattern, the helper
for JS `String.prototype.includes`. -/
def leadMatch : List Char → List Char → Bool
  | [], _ => true
  | _ :: _, [] => false
  | a :: as, b :: bs => a = b && leadMatch as bs

/-- Whether a pattern occurs contiguously inside a list. -/
def hasSub (needle : List Char) : List Char → Bool
  | [] => leadMatch needle []
  | c :: rest => leadMatch needle (c :: rest) || hasSub needle rest

/-- JS `haystack.includes(pattern)`. -/
def jsIncludes (haystack pattern : String) : Bool :=
  hasSub pattern.data haystack.data

/-- A value thrown while loading a native module candidate
(`src/ExpoIapModule.ts`): an `UnavailabilityError` instance, an `Error`
instance with a message, or any other thrown value. -/
inductive LoadError where
  | unavailabilityErr
  | errorWithMessage (message : String)
  | nonError (tag : Nat)
deriving DecidableEq, Repr

/-- A loaded native module value; the resolver reads only its
`IS_ONSIDE_KIT_INSTALLED_IOS` field (`none` models the field being absent
or `undefined`), `tag` stands for the rest of the module object. -/
structure NativeModuleVal where
  isOnsideKitInstalledIOS : Option Bool
  tag : Nat
deriving DecidableEq, Repr

/-- `isMissingModuleError` from `src/ExpoIapModule.ts`: true for an
`UnavailabilityError` or for an `Error` whose message includes
`Cannot find native module '<name>'`; false for non-`Error` throwables. -/
def isMissingModuleError (e : LoadError) (moduleName : String) : Bool :=
  match e with
  | .unavailabilityErr => true
  | .errorWithMessage msg =>
    jsIncludes msg ("Cannot find native module '" ++ moduleName ++ "'")
  | .nonError _ => false

/-- How `resolveNativeModule` ends: a resolved `{module, name}` pair, a
propagated load error, or the final `UnavailabilityError` naming the
library once every candidate has been passed over. -/
inductive ResolveOutcome where
  | resolved (module : NativeModuleVal) (name : String)
  | threw (e : LoadError)
  | unavailability (lib : String) (message : String)
deriving DecidableEq, Repr

/-- The candidate loop of `resolveNativeModule` (`src/ExpoIapModule.ts`):
`load` models `requireNativeModule`, `installed` the truthiness of the
module-level `installedFromOnside` check. -/
def resolveLoop (load : String → Except LoadError NativeModuleVal)
    (installed : Bool) : List String → ResolveOutcome
  | [] => .unavailability "expo-iap" "ExpoIap native module is unavailable"
  | name :: rest =>
    match load name with
    | .ok module =>
      if name = "ExpoIapOnside" ∧
          (module.isOnsideKitInstalledIOS = some false ∨ installed = false) then
        resolveLoop load installed rest
      else
        .resolved module name
    | .error e =>
      if name = "ExpoIapOnside" ∧ isMissingModuleError e name then
        resolveLoop load installed rest
      else
        .threw e

/-- `resolveNativeModule` from `src/ExpoIapModule.ts`: try the candidates
`['ExpoIapOnside', 'ExpoIap']` in order. -/
def resolveNativeModule (load : String → Except LoadError NativeModuleVal)
    (installed : Bool) : ResolveOutcome :=
  resolveLoop load installed ["ExpoIapOnside", "ExpoIap"]

/-- C3: whenever the `skus` argument of `fetchProducts` is missing, not an
array, or an empty array, the call rejects with a `PurchaseError` carrying
code `EmptySkuList`, with no native bridge call made, on every platform
and for every native result. -/
theorem C3_fetch_products_empty_sku_list
    (request : Option FetchRequest) (os : String) (native : List RawItem)
    (h : skusArrayNonEmpty (requestSkus request) = false) :
    fetchProducts request os native =
      ⟨[], .error (.purchaseErr (createPurchaseError .emptySkuList
        "No SKUs provided" none none))⟩ := by
  unfold fetchProducts
  cases hr : requestSkus request with
  | arr l =>
    rw [hr] at h
    simp only [skusArrayNonEmpty, decide_eq_false_iff_not, not_not] at h
    simp [h]
  | missing => simp
  | notArray => simp

/-- Witness for C3: the empty `skus` array rejects with `EmptySkuList`. -/
theorem C3_fetch_products_empty_sku_list_witness :
    fetchProducts (some ⟨.arr [], some "in-app"⟩) "ios" [] =
      ⟨[], .error (.purchaseErr (createPurchaseError .emptySkuList
        "No SKUs provided" none none))⟩ :=
  C3_fetch_products_empty_sku_list (some ⟨.arr [], some "in-app"⟩) "ios" []
    (by decide)

/-- C5: on Android, `finishTransaction` with a purchase whose
`purchaseToken` is missing or empty rejects with a `DeveloperError`-coded
error carrying the purchase's `productId`, for every `isConsumable` value,
and no native consume/acknowledge call is made. -/
theorem C5_finish_transaction_android_token_required
    (purchase : Purchase) (isConsumable : Bool)
    (h : purchase.purchaseToken = none ∨ purchase.purchaseToken = some "") :
    finishTransaction purchase isConsumable "android" =
      ⟨[], .error (.purchaseErr (createPurchaseError .developerError
        "Purchase token is required to finish transaction"
        (some purchase.productId) (some "android")))⟩ := by
  unfold finishTransaction
  rcases h with h | h <;> simp [h]

/-- Witness for C5 at a concrete purchase with no token, for both values
of `isConsumable`. -/
theorem C5_finish_transaction_android_token_required_witness :
    finishTransaction ⟨.str "android", "i", "prod9", none, 0, []⟩ true
        "android" =
      ⟨[], .error (.purchaseErr (createPurchaseError .developerError
        "Purchase token is required to finish transaction"
        (some "prod9") (some "android")))⟩ ∧
    finishTransaction ⟨.str "android", "i", "prod9", some "", 0, []⟩ false
        "android" =
      ⟨[], .error (.purchaseErr (createPurchaseError .developerError
        "Purchase token is required to finish transaction"
        (some "prod9") (some "android")))⟩ :=
  ⟨C5_finish_transaction_android_token_required
      ⟨.str "android", "i", "prod9", none, 0, []⟩ true (Or.inl rfl),
   C5_finish_transaction_android_token_required
      ⟨.str "android", "i", "prod9", some "", 0, []⟩ false (Or.inr rfl)⟩

/-- C2: on iOS, for every valid `requestPurchase` call, an array native
response yields the normalized array, a single-purchase response yields
that purchase normalized, and a `null` response yields `[]` when the
canonical type is `'subs'` but `null` when it is `'in-app'`. -/
theorem C2_ios_request_purchase_response
    (t : Option String) (c nt : String)
    (ht : normalizeProductType t = .ok (c, nt))
    (hc : c = "in-app" ∨ c = "subs")
    (sku : String) (hs : sku ≠ "")
    (android? : Option RequestAndroidProps) (nativeAndroid : List Purchase)
    (ps : List Purchase) (p : Purchase) :
    (requestPurchase ⟨⟨some ⟨some sku⟩, android?⟩, t⟩ "ios" (.arr ps)
        nativeAndroid).result = .ok (.purchases (normalizePurchaseArray ps)) ∧
    (requestPurchase ⟨⟨some ⟨some sku⟩, android?⟩, t⟩ "ios" (.single p)
        nativeAndroid).result = .ok (.purchase (normalizePurchasePlatform p)) ∧
    (c = "subs" →
      (requestPurchase ⟨⟨some ⟨some sku⟩, android?⟩, t⟩ "ios" .null
        nativeAndroid).result = .ok (.purchases [])) ∧
    (c = "in-app" →
      (requestPurchase ⟨⟨some ⟨some sku⟩, android?⟩, t⟩ "ios" .null
        nativeAndroid).result = .ok .null) := by
  unfold requestPurchase
  rw [ht]
  rcases hc with hc | hc <;> subst hc <;>
    simp [iosSkuMissing, hs]

/-- Witness for C2 at concrete inputs: type `'subs'` with a `null` native
response resolves with `[]`, and type `'in-app'` with a `null` native
response resolves with `null`. -/
theorem C2_ios_request_purchase_response_witness :
    (requestPurchase ⟨⟨some ⟨some "sku1"⟩, none⟩, some "subs"⟩ "ios" .null
        []).result = .ok (.purchases []) ∧
    (requestPurchase ⟨⟨some ⟨some "sku1"⟩, none⟩, some "in-app"⟩ "ios" .null
        []).result = .ok .null ∧
    (requestPurchase ⟨⟨some ⟨some "sku1"⟩, none⟩, some "subs"⟩ "ios"
        (.single ⟨.str "IOS", "i", "pr", none, 0, []⟩) []).result =
      .ok (.purchase ⟨.str "ios", "i", "pr", none, 0, []⟩) := by
  refine ⟨(C2_ios_request_purchase_response (some "subs") "subs" "subs" rfl
      (Or.inr rfl) "sku1" (by decide) none [] [] ⟨.nonString, "", "", none, 0, []⟩).2.2.1 rfl,
    (C2_ios_request_purchase_response (some "in-app") "in-app" "in-app" rfl
      (Or.inl rfl) "sku1" (by decide) none [] [] ⟨.nonString, "", "", none, 0, []⟩).2.2.2 rfl,
    ?_⟩
  have h := (C2_ios_request_purchase_response (some "subs") "subs" "subs" rfl
      (Or.inr rfl) "sku1" (by decide) none [] []
      ⟨.str "IOS", "i", "pr", none, 0, []⟩).2.1
  rw [h, normalize_lower_of_known _ "IOS" rfl (Or.inl (by decide))]
  have : jsToLower "IOS" = "ios" := by decide
  rw [this]

/-- C6: for every valid product type, a malformed per-platform request
(iOS: `request.ios.sku` missing/empty; Android: `request.android.skus`
missing or empty) makes `requestPurchase` throw before any native bridge
call, never resolving with a silently empty result. -/
theorem C6_request_purchase_malformed_request
    (t : Option String) (c nt : String)
    (ht : normalizeProductType t = .ok (c, nt))
    (req : RequestProps) (nIos : NativePurchaseResponse)
    (nAnd : List Purchase) :
    (iosSkuMissing req = true →
      requestPurchase ⟨req, t⟩ "ios" nIos nAnd =
        ⟨[], .error (.genericError
          "Invalid request for iOS. The `sku` property is required and must be a string.")⟩) ∧
    (androidSkusMissing req = true →
      (requestPurchase ⟨req, t⟩ "android" nIos nAnd).nativeCalls = [] ∧
      ∃ m, (requestPurchase ⟨req, t⟩ "android" nIos nAnd).result =
        .error (.genericError m)) := by
  have hc : c = "in-app" ∨ c = "subs" ∨ c = "all" := by
    unfold normalizeProductType at ht
    split at ht
    · exact Or.inl (by cases ht; rfl)
    · split at ht
      · exact Or.inr (Or.inl (by cases ht; rfl))
      · split at ht
        · exact Or.inr (Or.inr (by cases ht; rfl))
        · cases ht
  constructor
  · intro hios
    unfold requestPurchase
    rw [ht]
    simp [hios]
  · intro hand
    unfold requestPurchase
    rw [ht]
    rcases hc with hc | hc | hc <;> subst hc <;> simp [hand]

/-- Witness for C6 at concrete inputs: a missing iOS `sku` and a missing
Android `skus` both reject up front. -/
theorem C6_request_purchase_malformed_request_witness :
    requestPurchase ⟨⟨some ⟨none⟩, some ⟨some ["a"]⟩⟩, some "in-app"⟩ "ios"
        .null [] =
      ⟨[], .error (.genericError
        "Invalid request for iOS. The `sku` property is required and must be a string.")⟩ ∧
    (requestPurchase ⟨⟨some ⟨some "a"⟩, some ⟨some []⟩⟩, some "subs"⟩
        "android" .null []).nativeCalls = [] ∧
    ∃ m, (requestPurchase ⟨⟨some ⟨some "a"⟩, some ⟨some []⟩⟩, some "subs"⟩
        "android" .null []).result = .error (.genericError m) := by
  refine ⟨(C6_request_purchase_malformed_request (some "in-app") "in-app"
      "in-app" rfl ⟨some ⟨none⟩, some ⟨some ["a"]⟩⟩ .null []).1 rfl, ?_, ?_⟩
  · exact ((C6_request_purchase_malformed_request (some "subs") "subs" "subs"
      rfl ⟨some ⟨some "a"⟩, some ⟨some []⟩⟩ .null []).2 rfl).1
  · exact ((C6_request_purchase_malformed_request (some "subs") "subs" "subs"
      rfl ⟨some ⟨some "a"⟩, some ⟨some []⟩⟩ .null []).2 rfl).2

theorem idInRequestedSkus_spec (item : RawItem) (skus : List String)
    (h : idInRequestedSkus item skus = true) :
    ∃ pf idf tag s, item = .obj pf idf tag ∧ idf = .str s ∧ s ∈ skus := by
  cases item with
  | nullish => simp [idInRequestedSkus] at h
  | obj pf idf tag =>
    cases idf with
    | str s =>
      refine ⟨pf, .str s, tag, s, rfl, rfl, ?_⟩
      simpa [idInRequestedSkus, List.contains] using h
    | missing => simp [idInRequestedSkus] at h
    | nonString => simp [idInRequestedSkus] at h

/-- C4: on a supported platform, every element of the array `fetchProducts`
resolves with satisfies the running platform's product type guard and has a
string `id` belonging to the requested `skus`; every returned element comes
from the native array (anything failing either test is dropped). -/
theorem C4_fetch_products_double_filter
    (skus : List String) (hne : skus ≠ []) (t : Option String) (c nt : String)
    (ht : normalizeProductType t = .ok (c, nt))
    (os : String) (hos : os = "ios" ∨ os = "android")
    (native : List RawItem) :
    ∃ l, (fetchProducts (some ⟨.arr skus, t⟩) os native).result = .ok l ∧
      (∀ item ∈ l,
        (os = "ios" → isProductIOS item = true) ∧
        (os = "android" → isProductAndroid item = true) ∧
        idInRequestedSkus item skus = true ∧
        ∃ pf idf tag s, item = .obj pf idf tag ∧ idf = .str s ∧ s ∈ skus) ∧
      (∀ item ∈ l, item ∈ native) := by
  rcases hos with h | h <;> subst h
  · refine ⟨native.filter
        (fun item => isProductIOS item && idInRequestedSkus item skus),
      ?_, ?_, ?_⟩
    · simp [fetchProducts, requestSkus, ht, hne]
    · intro item hmem
      rw [List.mem_filter] at hmem
      obtain ⟨-, hpass⟩ := hmem
      rw [Bool.and_eq_true] at hpass
      exact ⟨fun _ => hpass.1, fun hno => absurd hno (by decide), hpass.2,
        idInRequestedSkus_spec item skus hpass.2⟩
    · intro item hmem
      exact (List.mem_filter.mp hmem).1
  · refine ⟨native.filter
        (fun item => isProductAndroid item && idInRequestedSkus item skus),
      ?_, ?_, ?_⟩
    · simp [fetchProducts, requestSkus, ht, hne]
    · intro item hmem
      rw [List.mem_filter] at hmem
      obtain ⟨-, hpass⟩ := hmem
      rw [Bool.and_eq_true] at hpass
      exact ⟨fun hno => absurd hno (by decide), fun _ => hpass.1, hpass.2,
        idInRequestedSkus_spec item skus hpass.2⟩
    · intro item hmem
      exact (List.mem_filter.mp hmem).1

/-- Witness for C4: an iOS fetch of `['a']` against a native array holding
a null entry, a wrong-platform item, an out-of-request item and a matching
item keeps exactly the matching item. -/
theorem C4_fetch_products_double_filter_witness :
    ∃ l, (fetchProducts (some ⟨.arr ["a"], some "in-app"⟩) "ios"
        [.nullish, .obj (some "android") (.str "a") 0,
         .obj (some "ios") (.str "b") 1,
         .obj (some "ios") (.str "a") 2]).result = .ok l ∧
      (∀ item ∈ l,
        ("ios" = "ios" → isProductIOS item = true) ∧
        ("ios" = "android" → isProductAndroid item = true) ∧
        idInRequestedSkus item ["a"] = true ∧
        ∃ pf idf tag s, item = .obj pf idf tag ∧ idf = .str s ∧ s ∈ ["a"]) ∧
      (∀ item ∈ l, item ∈
        [RawItem.nullish, .obj (some "android") (.str "a") 0,
         .obj (some "ios") (.str "b") 1, .obj (some "ios") (.str "a") 2]) :=
  C4_fetch_products_double_filter ["a"] (by decide) (some "in-app")
    "in-app" "in-app" rfl "ios" (Or.inl rfl)
    [.nullish, .obj (some "android") (.str "a") 0,
     .obj (some "ios") (.str "b") 1, .obj (some "ios") (.str "a") 2]

/-- C7: native bridge resolution tries `ExpoIapOnside` then `ExpoIap` in
that order; a loaded but inert `ExpoIapOnside` is skipped; a
missing-module-class load error is tolerated only for the optional
`ExpoIapOnside`; any other load error propagates; and exhausting the
candidate list fails with an `UnavailabilityError` naming `'expo-iap'`. -/
theorem C7_native_module_resolution
    (load : String → Except LoadError NativeModuleVal) (installed : Bool)
    (m m2 : NativeModuleVal) (e : LoadError) :
    (load "ExpoIapOnside" = .ok m → m.isOnsideKitInstalledIOS ≠ some false →
      installed = true →
      resolveNativeModule load installed = .resolved m "ExpoIapOnside") ∧
    (load "ExpoIapOnside" = .ok m →
      (m.isOnsideKitInstalledIOS = some false ∨ installed = false) →
      load "ExpoIap" = .ok m2 →
      resolveNativeModule load installed = .resolved m2 "ExpoIap") ∧
    (load "ExpoIapOnside" = .error e →
      isMissingModuleError e "ExpoIapOnside" = true →
      load "ExpoIap" = .ok m2 →
      resolveNativeModule load installed = .resolved m2 "ExpoIap") ∧
    (load "ExpoIapOnside" = .error e →
      isMissingModuleError e "ExpoIapOnside" = false →
      resolveNativeModule load installed = .threw e) ∧
    (load "ExpoIapOnside" = .error e →
      isMissingModuleError e "ExpoIapOnside" = true →
      ∀ e2, load "ExpoIap" = .error e2 →
        resolveNativeModule load installed = .threw e2) ∧
    resolveLoop load installed [] =
      .unavailability "expo-iap" "ExpoIap native module is unavailable" := by
  refine ⟨?_, ?_, ?_, ?_, ?_, rfl⟩
  · intro h1 h2 h3
    subst h3
    simp [resolveNativeModule, resolveLoop, h1, h2]
  · intro h1 h2 h3
    rcases h2 with h2 | h2 <;>
      simp [resolveNativeModule, resolveLoop, h1, h2, h3]
  · intro h1 h2 h3
    simp [resolveNativeModule, resolveLoop, h1, h2, h3]
  · intro h1 h2
    simp [resolveNativeModule, resolveLoop, h1, h2]
  · intro h1 h2 e2 h3
    simp [resolveNativeModule, resolveLoop, h1, h2, h3]

/-- Witness for C7: with an inert `ExpoIapOnside` and a healthy `ExpoIap`,
resolution picks `ExpoIap`; with a failing `ExpoIapOnside` whose error is
not a missing-module error, the error propagates. -/
theorem C7_native_module_resolution_witness :
    resolveNativeModule
        (fun name => if name = "ExpoIapOnside"
          then .ok ⟨some false, 0⟩ else .ok ⟨none, 1⟩) true =
      .resolved ⟨none, 1⟩ "ExpoIap" ∧
    resolveNativeModule
        (fun name => if name = "ExpoIapOnside"
          then .error (.errorWithMessage "boom") else .ok ⟨none, 1⟩) true =
      .threw (.errorWithMessage "boom") := by
  constructor
  · exact (C7_native_module_resolution
      (fun name => if name = "ExpoIapOnside"
        then .ok ⟨some false, 0⟩ else .ok ⟨none, 1⟩) true
      ⟨some false, 0⟩ ⟨none, 1⟩ .unavailabilityErr).2.1
      rfl (Or.inl rfl) rfl
  · exact (C7_native_module_resolution
      (fun name => if name = "ExpoIapOnside"
        then .error (.errorWithMessage "boom") else .ok ⟨none, 1⟩) true
      ⟨none, 0⟩ ⟨none, 1⟩ (.errorWithMessage "boom")).2.2.2.1
      rfl (by decide)

/-- C8: `restorePurchases` on iOS performs the best-effort sync (whose
failure never surfaces) followed by the available-purchases query with
exactly the default options `alsoPublishToEventListenerIOS: false`,
`onlyIncludeActiveItemsIOS: true`, and resolves with no purchase data:
its outcome is independent of whether the sync step failed. -/
theorem C8_restore_purchases_ios (syncFails : Bool)
    (native : Except JsError (List Purchase)) :
    (restorePurchases "ios" syncFails native).nativeCalls =
      [.syncIos syncFails, .getAvailableItemsIos false true] ∧
    (restorePurchases "ios" syncFails native).result =
      native.map (fun _ => ()) ∧
    (restorePurchases "ios" true native).result =
      (restorePurchases "ios" false native).result := by
  refine ⟨by simp [restorePurchases, getAvailablePurchases], ?_, ?_⟩ <;>
    cases native <;>
      simp [restorePurchases, getAvailablePurchases, Except.map]

/-- Counterexample to C9: on the unsupported platform `'web'`,
`getAvailablePurchases` does not throw — it resolves with the defaulted
value `[]` and performs no native call — and `getStorefront` likewise
resolves with the defaulted value `''`. -/
theorem C9_counterexample :
    (getAvailablePurchases none "web" (.ok [])).result = .ok [] ∧
    (getAvailablePurchases none "web" (.ok [])).nativeCalls = [] ∧
    (getStorefront "web" "USA").result = .ok "" ∧
    (getStorefront "web" "USA").nativeCalls = [] := by
  refine ⟨rfl, rfl, rfl, rfl⟩

/-- C9 as amended: on a platform that is neither `'ios'` nor `'android'`,
`fetchProducts` (with a valid request), `requestPurchase` (with a valid
type) and `finishTransaction` all throw a platform-unsupported error, but
`getAvailablePurchases` resolves with the defaulted value `[]` and
`getStorefront` resolves with the defaulted value `''`, neither throwing
nor calling the native bridge. -/
theorem C9_amended_unsupported_platform
    (os : String) (h1 : os ≠ "ios") (h2 : os ≠ "android")
    (skus : List String) (hne : skus ≠ []) (t : Option String) (c nt : String)
    (ht : normalizeProductType t = .ok (c, nt)) (native : List RawItem)
    (req : RequestProps) (nIos : NativePurchaseResponse)
    (nAnd : List Purchase) (p : Purchase) (b : Bool)
    (opts : Option PurchaseOptions) (navail : Except JsError (List Purchase))
    (sf : String) :
    fetchProducts (some ⟨.arr skus, t⟩) os native =
      ⟨[], .error (.genericError "Unsupported platform")⟩ ∧
    requestPurchase ⟨req, t⟩ os nIos nAnd =
      ⟨[], .error (.genericError "Platform not supported")⟩ ∧
    finishTransaction p b os =
      ⟨[], .error (.genericError "Unsupported Platform")⟩ ∧
    getAvailablePurchases opts os navail = ⟨[], .ok []⟩ ∧
    getStorefront os sf = ⟨[], .ok ""⟩ := by
  refine ⟨?_, ?_, ?_, ?_, ?_⟩
  · simp [fetchProducts, requestSkus, ht, hne, h1, h2]
  · unfold requestPurchase
    rw [ht]
    simp [h1, h2]
  · simp [finishTransaction, h1, h2]
  · simp [getAvailablePurchases, h1, h2, normalizePurchaseArray]
  · simp [getStorefront, h1, h2]

/-- Witness for the amended C9 at the concrete platform `'web'`. -/
theorem C9_amended_unsupported_platform_witness :
    fetchProducts (some ⟨.arr ["a"], none⟩) "web" [] =
      ⟨[], .error (.genericError "Unsupported platform")⟩ ∧
    requestPurchase ⟨⟨some ⟨some "a"⟩, some ⟨some ["a"]⟩⟩, none⟩ "web"
        .null [] =
      ⟨[], .error (.genericError "Platform not supported")⟩ ∧
    finishTransaction ⟨.str "ios", "i", "p", some "tok", 0, []⟩ true "web" =
      ⟨[], .error (.genericError "Unsupported Platform")⟩ ∧
    getAvailablePurchases none "web" (.ok []) = ⟨[], .ok []⟩ ∧
    getStorefront "web" "USA" = ⟨[], .ok ""⟩ :=
  C9_amended_unsupported_platform "web" (by decide) (by decide) ["a"]
    (by decide) none "in-app" "in-app" rfl []
    ⟨some ⟨some "a"⟩, some ⟨some ["a"]⟩⟩ .null []
    ⟨.str "ios", "i", "p", some "tok", 0, []⟩ true none (.ok []) "USA"

end ExpoIap
